import Mathlib

set_option linter.unusedVariables false

/-!
Verification of the SQuARE repository (Systematic Quantitative Asset Risk
Evaluator): a shallow embedding in Lean 4 of the pure scoring logic of
`streamlit_app.py`, `stock_classifier.py` and `stock_profile_matcher.py`,
together with theorems settling the spec claims C1 - C10.

Numbers are modelled as exact rationals (the Python code uses floats, but all
constants involved are decimal and the claims are about exact arithmetic
relations); a non-finite float result (NaN / inf, e.g. from division by zero)
is modelled as `none` of an `Option`.  Python strings are Lean `String`s;
`None`-able values are `Option`s.  Python truthiness (`if x:`) on a number is
`x` present and nonzero, on a string it is present and nonempty.
-/

namespace SQuARE

/-! ## Python string primitives -/

/-- Python `str.lower()`, as a list of characters. -/
def lowerStr (s : String) : List Char :=
  s.toList.map Char.toLower

/-- Python substring containment `needle in haystack` on lists of characters. -/
def substrB (needle : List Char) : List Char → Bool
  | [] => needle.isEmpty
  | c :: cs => needle.isPrefixOf (c :: cs) || substrB needle cs

/-- Helper for `splitWs`: accumulates the current word (reversed). -/
def splitWsAux : List Char → List Char → List (List Char)
  | [], acc => if acc.isEmpty then [] else [acc.reverse]
  | c :: cs, acc =>
      if c.isWhitespace then
        if acc.isEmpty then splitWsAux cs [] else acc.reverse :: splitWsAux cs []
      else
        splitWsAux cs (c :: acc)

/-- Python `str.split()` with no argument: split on whitespace runs, dropping
empty tokens. -/
def splitWs (s : List Char) : List (List Char) :=
  splitWsAux s []

/-- The apostrophe character, used inside templated reasoning strings. -/
def apos : String :=
  String.singleton (Char.ofNat 39)

/-- Python truthiness of an optional number: present and nonzero. -/
def pyTruthy (x : Option ℚ) : Bool :=
  match x with
  | none => false
  | some v => v != 0

/-- Python truthiness of an optional string: present and nonempty. -/
def pyTruthyStr (x : Option String) : Bool :=
  match x with
  | none => false
  | some s => !s.isEmpty

/-- Python `str(...)` formatting of a possibly-`None` string (f-strings render
`None` as the text "None"). -/
def optStr (x : Option String) : String :=
  x.getD "None"

/-! ## streamlit_app.py - ASI aggregation (lines 17, 151-156, 301) -/

/-- The module-level weight dictionary, `streamlit_app.py` line 17:
`weights = {"vol": 0.4, "drawdown": 0.25, "growth": 0.2, "liquidity": 0.15}`. -/
structure Weights where
  vol : ℚ
  drawdown : ℚ
  growth : ℚ
  liquidity : ℚ

/-- `streamlit_app.py` line 17. -/
def weights : Weights :=
  { vol := 0.4, drawdown := 0.25, growth := 0.2, liquidity := 0.15 }

/-- The rule-based ASI, `streamlit_app.py` lines 151-156:
`vol_score * weights["vol"] + dd_score * weights["drawdown"]
 + growth_score * weights["growth"] + liquidity_score * weights["liquidity"]`. -/
def rule_asi (vol_score dd_score growth_score liquidity_score : ℚ) : ℚ :=
  vol_score * weights.vol
    + dd_score * weights.drawdown
    + growth_score * weights.growth
    + liquidity_score * weights.liquidity

/-- The slider-driven hypothetical ASI, `streamlit_app.py` line 301:
`sv1 * weights["vol"] + sv2 * weights["drawdown"] + sv3 * weights["growth"]
 + sv4 * weights["liquidity"]`. -/
def hypothetical_asi (sv1 sv2 sv3 sv4 : ℚ) : ℚ :=
  sv1 * weights.vol
    + sv2 * weights.drawdown
    + sv3 * weights.growth
    + sv4 * weights.liquidity

/-! ## streamlit_app.py - max drawdown (line 115) -/

/-- Running maximum accumulator for `cummax`. -/
def cummaxAux (cur : ℚ) : List ℚ → List ℚ
  | [] => []
  | p :: ps => max cur p :: cummaxAux (max cur p) ps

/-- pandas `Series.cummax()`: the cumulative maximum of a price series. -/
def cummax : List ℚ → List ℚ
  | [] => []
  | p :: ps => p :: cummaxAux p ps

/-- pandas `Series.max()`: `none` on an empty series (pandas yields NaN). -/
def foldMax (l : List ℚ) : Option ℚ :=
  l.foldl (fun acc x =>
    match acc with
    | none => some x
    | some m => some (max m x)) none

/-- `streamlit_app.py` line 115:
`max_dd = float((hist_1y["Close"].cummax() - hist_1y["Close"]).max()
                / hist_1y["Close"].cummax().max() * 100)`.
A zero divisor produces a non-finite float (NaN or inf) under IEEE
arithmetic, modelled as `none`; an empty window likewise yields NaN. -/
def max_dd (closes : List ℚ) : Option ℚ :=
  match foldMax (List.zipWith (fun a b => a - b) (cummax closes) closes),
        foldMax (cummax closes) with
  | some num, some den => if den = 0 then none else some (num / den * 100)
  | _, _ => none

/-- Modelled from the spec: the max-drawdown metric of section 4.1, the
maximum over the window of (running peak - current price) divided by the
running peak at that same point, as a percentage, with a zero running peak
treated as drawdown 0 (the spec's stated edge-case policy). -/
def max_drawdown_spec (closes : List ℚ) : Option ℚ :=
  foldMax (List.zipWith
    (fun pk p => if pk = 0 then 0 else (pk - p) / pk * 100) (cummax closes) closes)

/-- A fold of `max` starting from a present accumulator stays present. -/
theorem foldMax_go_some (l : List ℚ) (m : ℚ) :
    ∃ r, l.foldl (fun acc x =>
      match acc with
      | none => some x
      | some mm => some (max mm x)) (some m) = some r := by
  induction l generalizing m with
  | nil => exact ⟨m, rfl⟩
  | cons a t ih => simpa using ih (max m a)

/-- `foldMax` of a nonempty list is present. -/
theorem foldMax_cons (a : ℚ) (l : List ℚ) : ∃ r, foldMax (a :: l) = some r := by
  simpa [foldMax] using foldMax_go_some l a

/-! ## Claim theorems for the ASI aggregation and drawdown -/

/-- C1: the ASI aggregation is the weighted sum
ASI = 0.40 * volatility_score + 0.25 * drawdown_score + 0.20 * growth_score
+ 0.15 * liquidity_score; in particular, for subscores (20, 45, 70, 95) it
returns exactly 47.5. -/
theorem c1_rule_asi_weighted_sum :
    (∀ v d g l : ℚ,
      rule_asi v d g l = 0.40 * v + 0.25 * d + 0.20 * g + 0.15 * l) ∧
    rule_asi 20 45 70 95 = 47.5 := by
  constructor
  · intro v d g l
    show v * (0.4 : ℚ) + d * 0.25 + g * 0.2 + l * 0.15 = _
    ring
  · norm_num [rule_asi, weights]

/-- C5: the "actual" ASI (`rule_asi`, lines 151-156) and the "hypothetical"
ASI (line 301) are extensionally equal functions of the four subscores: on
identical subscore vectors they yield identical results. -/
theorem c5_hypothetical_eq_rule_asi :
    ∀ v d g l : ℚ, hypothetical_asi v d g l = rule_asi v d g l := by
  intro v d g l
  rfl

/-- C2 (code bug): on the price window [100, 50, 200] the code's drawdown
formula (line 115) divides the largest raw peak-minus-price gap (50, attained
at the second point where the running peak is 100) by the global maximum of
the running peak (200), reporting 25%; the documented metric - the maximum of
(running peak - price) / running peak at the same point - is 50%. -/
theorem c2_max_dd_code_vs_spec :
    max_dd [100, 50, 200] = some 25 ∧
    max_drawdown_spec [100, 50, 200] = some 50 := by
  constructor
  · norm_num [max_dd, cummax, cummaxAux, foldMax, max_def]
  · norm_num [max_drawdown_spec, cummax, cummaxAux, foldMax, max_def]

/-- C9 (counterexample): on the all-zero price window [0, 0] the running peak
is zero and the code's drawdown (line 115) evaluates 0/0, a non-finite float
(`none` in this model), so it does not report a drawdown of 0 as claimed. -/
theorem c9_zero_peak_counterexample : ¬ (max_dd [0, 0] = some 0) := by
  norm_num [max_dd, cummax, cummaxAux, foldMax, max_def]
  simp

/-- C9 (amended): when the running peak of a nonempty price window is zero,
the drawdown computation raises no exception but yields a non-finite value
(NaN from 0/0, modelled as `none`) rather than 0. -/
theorem c9_zero_peak_amended (c : ℚ) (cs : List ℚ)
    (h : foldMax (cummax (c :: cs)) = some 0) :
    max_dd (c :: cs) = none := by
  obtain ⟨r, hr⟩ := foldMax_cons (c - c)
    (List.zipWith (fun a b => a - b) (cummaxAux c cs) cs)
  unfold max_dd
  have hzip : List.zipWith (fun a b => a - b) (cummax (c :: cs)) (c :: cs)
      = (c - c) :: List.zipWith (fun a b => a - b) (cummaxAux c cs) cs := by
    simp [cummax]
  rw [hzip, hr, h]
  simp

/-- Witness for C9's amended theorem at the concrete window [0, 0]. -/
theorem c9_zero_peak_witness : max_dd [0, 0] = none :=
  c9_zero_peak_amended 0 [0] (by norm_num [foldMax, cummax, cummaxAux, max_def])

/-! ## stock_classifier.py - normalization and classification (lines 42-77)

`classify_stock` itself performs the yfinance fetch (out of scope, an external
collaborator); its pure classification steps, inlined in the source, are
embedded as the functions below. -/

/-- `stock_classifier.py` lines 42-44:
`if dividend_yield and dividend_yield > 1: dividend_yield = dividend_yield / 100`.
Python truthiness: a present, nonzero value. -/
def normalize_dividend_yield (dividend_yield : Option ℚ) : Option ℚ :=
  match dividend_yield with
  | none => none
  | some v => if v ≠ 0 ∧ v > 1 then some (v / 100) else some v

/-- `stock_classifier.py` lines 46-50: the same normalization for
`revenue_growth` and `earnings_growth` with threshold 10. -/
def normalize_growth (growth : Option ℚ) : Option ℚ :=
  match growth with
  | none => none
  | some v => if v ≠ 0 ∧ v > 10 then some (v / 100) else some v

/-- `stock_classifier.py` lines 52-64: market-cap tier. The source initializes
`market_cap_tier = "Unknown"` and only reclassifies under `if market_cap:`,
so an absent or zero market cap stays "Unknown". -/
def classify_market_cap_tier (market_cap : Option ℚ) : String :=
  match market_cap with
  | none => "Unknown"
  | some m =>
      if m ≠ 0 then
        if m ≥ 2000000000000 then "Mega-cap"
        else if m ≥ 300000000000 then "Large-cap"
        else if m ≥ 50000000000 then "Mid-cap"
        else if m ≥ 5000000000 then "Small-cap"
        else "Micro-cap"
      else "Unknown"

/-- `stock_classifier.py` lines 70-77: the inner ordered style heuristic.
The third rule repeats the truthiness test `pe_ratio and pe_ratio > 20`, and
the fourth repeats `dividend_yield is not None` (vacuous at this point since
the value is known present); both are kept. -/
def style_rules (pe_ratio dividend_yield earnings_growth : ℚ) : String :=
  if dividend_yield > 0.03 ∧ pe_ratio < 20 then "Dividend"
  else if dividend_yield > 0.025 then "Dividend"
  else if earnings_growth > 0.15 ∧ pe_ratio ≠ 0 ∧ pe_ratio > 20 then "Growth"
  else if pe_ratio < 15 ∧ dividend_yield < 0.02 then "Value"
  else "Blend"

/-- `stock_classifier.py` lines 68-77: `style = "Blend"` and the guard
`if pe_ratio and dividend_yield is not None and earnings_growth:` - P/E and
earnings growth must be present and nonzero (truthiness), dividend yield must
merely be present. -/
def classify_style (pe_ratio dividend_yield earnings_growth : Option ℚ) : String :=
  match pe_ratio, dividend_yield, earnings_growth with
  | some pe, some dy, some eg =>
      if pe ≠ 0 ∧ eg ≠ 0 then style_rules pe dy eg else "Blend"
  | _, _, _ => "Blend"

/-! ## Claim theorems for the classifier -/

/-- C7: for every dividend yield above 1 and growth rate above 10 the
normalization divides by 100 exactly once; values at or below the threshold
pass through unchanged; hence normalization is idempotent on already-decimal
inputs. -/
theorem c7_normalization_once_and_idempotent (y y2 g g2 : ℚ)
    (hy : 1 < y) (hy2 : y2 ≤ 1) (hg : 10 < g) (hg2 : g2 ≤ 10) :
    normalize_dividend_yield (some y) = some (y / 100) ∧
    normalize_dividend_yield (some y2) = some y2 ∧
    normalize_growth (some g) = some (g / 100) ∧
    normalize_growth (some g2) = some g2 ∧
    normalize_dividend_yield (normalize_dividend_yield (some y2))
      = normalize_dividend_yield (some y2) ∧
    normalize_growth (normalize_growth (some g2)) = normalize_growth (some g2) := by
  have hy0 : y ≠ 0 := (lt_trans zero_lt_one hy).ne'
  have hg0 : g ≠ 0 := (lt_trans (by norm_num) hg).ne'
  have hy2n : ¬ (y2 > 1) := not_lt.mpr hy2
  have hg2n : ¬ (g2 > 10) := not_lt.mpr hg2
  have e2 : normalize_dividend_yield (some y2) = some y2 := by
    simp [normalize_dividend_yield, hy2n]
  have e4 : normalize_growth (some g2) = some g2 := by
    simp [normalize_growth, hg2n]
  refine ⟨?_, e2, ?_, e4, ?_, ?_⟩
  · simp [normalize_dividend_yield, hy0, hy]
  · simp [normalize_growth, hg0, hg]
  · rw [e2, e2]
  · rw [e4, e4]

/-- Witness for C7 at yields 2 and 1/2 and growth rates 20 and 5. -/
theorem c7_normalization_witness :
    normalize_dividend_yield (some 2) = some (2 / 100) ∧
    normalize_dividend_yield (some (1/2)) = some (1/2) ∧
    normalize_growth (some 20) = some (20 / 100) ∧
    normalize_growth (some 5) = some 5 ∧
    normalize_dividend_yield (normalize_dividend_yield (some (1/2)))
      = normalize_dividend_yield (some (1/2)) ∧
    normalize_growth (normalize_growth (some 5)) = normalize_growth (some 5) :=
  c7_normalization_once_and_idempotent 2 (1/2) 20 5
    (by norm_num) (by norm_num) (by norm_num) (by norm_num)

/-- C6 (counterexample): a present market cap of 0 is classified "Unknown",
not "Micro-cap", because the source guards with Python truthiness
(`if market_cap:`); so "Unknown" does not occur only when the market cap is
absent. -/
theorem c6_zero_market_cap_counterexample :
    classify_market_cap_tier (some 0) ≠ "Micro-cap" ∧
    classify_market_cap_tier (some 0) = "Unknown" := by
  constructor <;> simp [classify_market_cap_tier]

/-- C6 (amended): for every nonzero market cap the tier is the total
deterministic threshold function with inclusive boundaries (≥, not >), the
four boundary values classify into the upper tier, and the tier is "Unknown"
when the market cap is absent or zero (Python falsy). -/
theorem c6_market_cap_tier_amended :
    (∀ m : ℚ, m ≠ 0 →
      classify_market_cap_tier (some m) =
        if m ≥ 2000000000000 then "Mega-cap"
        else if m ≥ 300000000000 then "Large-cap"
        else if m ≥ 50000000000 then "Mid-cap"
        else if m ≥ 5000000000 then "Small-cap"
        else "Micro-cap") ∧
    classify_market_cap_tier none = "Unknown" ∧
    classify_market_cap_tier (some 0) = "Unknown" ∧
    classify_market_cap_tier (some 2000000000000) = "Mega-cap" ∧
    classify_market_cap_tier (some 300000000000) = "Large-cap" ∧
    classify_market_cap_tier (some 50000000000) = "Mid-cap" ∧
    classify_market_cap_tier (some 5000000000) = "Small-cap" := by
  refine ⟨fun m hm => by simp [classify_market_cap_tier, hm], rfl,
    by simp [classify_market_cap_tier],
    by norm_num [classify_market_cap_tier],
    by norm_num [classify_market_cap_tier],
    by norm_num [classify_market_cap_tier],
    by norm_num [classify_market_cap_tier]⟩

/-- Witness for C6's amended theorem at the nonzero market cap 7e9. -/
theorem c6_market_cap_tier_witness :
    classify_market_cap_tier (some 7000000000) = "Small-cap" := by
  rw [c6_market_cap_tier_amended.1 7000000000 (by norm_num)]
  norm_num

/-- C4 (counterexample): with P/E 10, dividend yield 0.01 and earnings growth
exactly 0 - all three present (non-none) - the claimed ordered heuristic
reaches its fourth rule (P/E < 15 and dividend yield < 0.02, the earlier
rules not firing) and would return "Value", but the code returns "Blend"
because a zero earnings growth is Python-falsy and fails the guard. -/
theorem c4_style_truthiness_counterexample :
    classify_style (some 10) (some 0.01) (some 0) ≠ "Value" ∧
    classify_style (some 10) (some 0.01) (some 0) = "Blend" ∧
    ((10:ℚ) < 15 ∧ (0.01:ℚ) < 0.02) ∧
    ¬ ((0.01:ℚ) > 0.03) ∧ ¬ ((0.01:ℚ) > 0.025) ∧ ¬ ((0:ℚ) > 0.15) := by
  refine ⟨?_, ?_, by norm_num, by norm_num, by norm_num, by norm_num⟩ <;>
    simp [classify_style]

/-- C4 (amended): the ordered first-match-wins heuristic applies whenever P/E
and earnings growth are present and nonzero (Python truthiness) and dividend
yield is present; if P/E or earnings growth is absent or zero, or dividend
yield is absent, the style defaults to "Blend". In particular P/E=18,
dividend yield=0.035, earnings growth=0.20 yields "Dividend". -/
theorem c4_style_amended :
    (∀ pe dy eg : ℚ, pe ≠ 0 → eg ≠ 0 →
      classify_style (some pe) (some dy) (some eg) =
        if dy > 0.03 ∧ pe < 20 then "Dividend"
        else if dy > 0.025 then "Dividend"
        else if eg > 0.15 ∧ pe > 20 then "Growth"
        else if pe < 15 ∧ dy < 0.02 then "Value"
        else "Blend") ∧
    (∀ dy eg : ℚ, classify_style none (some dy) (some eg) = "Blend") ∧
    (∀ pe eg : ℚ, classify_style (some pe) none (some eg) = "Blend") ∧
    (∀ pe dy : ℚ, classify_style (some pe) (some dy) none = "Blend") ∧
    (∀ dy eg : ℚ, classify_style (some 0) (some dy) (some eg) = "Blend") ∧
    (∀ pe dy : ℚ, classify_style (some pe) (some dy) (some 0) = "Blend") ∧
    classify_style (some 18) (some 0.035) (some 0.20) = "Dividend" := by
  refine ⟨?_, fun dy eg => rfl, fun pe eg => rfl, fun pe dy => rfl,
    fun dy eg => by simp [classify_style], fun pe dy => by simp [classify_style],
    ?_⟩
  · intro pe dy eg hpe heg
    simp only [classify_style]
    rw [if_pos ⟨hpe, heg⟩]
    simp [style_rules, hpe]
  · norm_num [classify_style, style_rules]

/-- Witness for C4's amended theorem: the heuristic applies at P/E 16, yield
0.04, growth 0.3 (all truthy) and its first rule fires. -/
theorem c4_style_witness :
    classify_style (some 16) (some 0.04) (some 0.3) = "Dividend" := by
  rw [c4_style_amended.1 16 0.04 0.3 (by norm_num) (by norm_num)]
  norm_num

/-! ## stock_profile_matcher.py - data model -/

/-- The investor behavioral profile (`stock_profile_matcher.py` lines 15-26:
the hardcoded default returned by `load_connor_profile` when no JSON file
exists).  The source reads fields with `dict.get` and per-field defaults; the
structure always carries every field, matching a well-formed profile. -/
structure ConnorProfile where
  investor_name : String
  risk_tolerance : String
  traits : List String
  biases : List String
  sector_preferences : List String
  growth_focus_score : ℚ
  momentum_bias : ℚ
  investment_horizon_years : ℕ
  market_cap_preference : String
  liquidity_preference : String

/-- `stock_profile_matcher.py` lines 8-26: the default profile. -/
def load_connor_profile : ConnorProfile where
  investor_name := "Connor Barwin"
  risk_tolerance := "Aggressive"
  traits := ["Long-Term Oriented", "Hands-On/Operational", "Socially Conscious",
    "Diligent/Analytical"]
  biases := ["Affinity Bias", "Narrative Fallacy", "Survivorship Bias"]
  sector_preferences := ["Sports & Entertainment", "Urban Real Estate/Development",
    "Social Impact Bonds"]
  growth_focus_score := 0.67
  momentum_bias := 0.60
  investment_horizon_years := 10
  market_cap_preference := "Mid to Large Cap"
  liquidity_preference := "Lower (prefers illiquid, long-term holds)"

/-- The dict returned by `stock_classifier.classify_stock` (its docstring,
lines 15-27): every derived field optional, `ticker` always a string. -/
structure ClassifiedStock where
  ticker : String
  short_name : Option String
  style : Option String
  sector : Option String
  market_cap_tier : Option String
  pe_ratio : Option ℚ
  dividend_yield : Option ℚ
  revenue_growth : Option ℚ
  earnings_growth : Option ℚ
  market_cap : Option ℚ
  error : Option String

/-- The dict returned by `match_stock_to_connor` (its docstring,
lines 210-224). -/
structure FitResult where
  ticker : String
  fit_score : Option ℚ
  fit_label : String
  fit_emoji : String
  style_alignment : Option ℚ
  sector_alignment : Option ℚ
  trait_alignment : Option ℚ
  stock_style : Option String
  stock_sector : Option String
  connor_risk_tolerance : String
  reasoning : String
  error : Option String

/-! ## stock_profile_matcher.py - alignment functions (lines 29-120) -/

/-- `stock_profile_matcher.py` lines 29-45: style alignment from the profile
growth-focus score.  The source compares the raw (possibly `None`) style
against the four style strings. -/
def compute_style_alignment (stock_style : Option String)
    (connor_profile : ConnorProfile) : ℚ :=
  if stock_style = some "Growth" then 0.95 * connor_profile.growth_focus_score
  else if stock_style = some "Blend" then 0.70 * connor_profile.growth_focus_score
  else if stock_style = some "Value" then 0.40 * (1 - connor_profile.growth_focus_score)
  else if stock_style = some "Dividend" then 0.35 * (1 - connor_profile.growth_focus_score)
  else 0.50

/-- `stock_profile_matcher.py` line 71: the fixed neutral sector list. -/
def neutral_sectors : List String :=
  ["Technology", "Healthcare", "Financials", "Industrials"]

/-- `stock_profile_matcher.py` lines 48-76: sector alignment.  Direct
case-insensitive substring match in either direction gives 0.95; else a shared
whitespace-split keyword token gives 0.75; else a (substring) match against
the neutral list gives 0.50; else 0.30. -/
def compute_sector_alignment (stock_sector : String)
    (connor_profile : ConnorProfile) : ℚ :=
  if connor_profile.sector_preferences.any (fun pref =>
      substrB (lowerStr pref) (lowerStr stock_sector)
        || substrB (lowerStr stock_sector) (lowerStr pref)) then 0.95
  else if !((splitWs (lowerStr stock_sector)).filter (fun t =>
      (connor_profile.sector_preferences.flatMap
        (fun pref => splitWs (lowerStr pref))).contains t)).isEmpty then 0.75
  else if neutral_sectors.any (fun neut =>
      substrB (lowerStr neut) (lowerStr stock_sector)) then 0.50
  else 0.30

/-- `stock_profile_matcher.py` lines 91-96: the market-cap-tier adjustment of
the trait alignment. -/
def trait_tier_adj (market_cap_tier : Option String) (alignment : ℚ) : ℚ :=
  if market_cap_tier = some "Mega-cap" ∨ market_cap_tier = some "Large-cap" then
    alignment + 0.15
  else if market_cap_tier = some "Mid-cap" then alignment + 0.10
  else if market_cap_tier = some "Small-cap" ∨ market_cap_tier = some "Micro-cap" then
    alignment - 0.10
  else alignment

/-- `stock_profile_matcher.py` lines 99-102: the earnings-growth adjustment
(`if earnings_growth and earnings_growth > 0.10 ... elif earnings_growth and
earnings_growth < 0 ...`, with Python truthiness). -/
def trait_eg_adj (earnings_growth : Option ℚ) (alignment : ℚ) : ℚ :=
  match earnings_growth with
  | none => alignment
  | some eg =>
      if eg ≠ 0 ∧ eg > 0.10 then alignment + 0.10
      else if eg ≠ 0 ∧ eg < 0 then alignment - 0.10
      else alignment

/-- `stock_profile_matcher.py` lines 104-108: the P/E adjustment
(`if pe_ratio:` truthiness, then `15 <= pe_ratio <= 30` or `pe_ratio > 50`). -/
def trait_pe_adj (pe_ratio : Option ℚ) (alignment : ℚ) : ℚ :=
  match pe_ratio with
  | none => alignment
  | some pe =>
      if pe ≠ 0 then
        if 15 ≤ pe ∧ pe ≤ 30 then alignment + 0.10
        else if pe > 50 then alignment - 0.05
        else alignment
      else alignment

/-- `stock_profile_matcher.py` lines 79-111: trait alignment starts at 0.50,
applies the three adjustments in order, and clamps to [0, 1].  The
`connor_profile` parameter is unused in the source body and kept here. -/
def compute_trait_alignment (classified_stock : ClassifiedStock)
    (connor_profile : ConnorProfile) : ℚ :=
  max 0.0 (min 1.0
    (trait_pe_adj classified_stock.pe_ratio
      (trait_eg_adj classified_stock.earnings_growth
        (trait_tier_adj classified_stock.market_cap_tier 0.50))))

/-- `stock_profile_matcher.py` lines 114-120: overall fit, weights
style 0.5 / sector 0.3 / trait 0.2, clamped to [0, 1]. -/
def compute_overall_fit (style_alignment sector_alignment trait_alignment : ℚ) : ℚ :=
  max 0.0 (min 1.0
    (0.5 * style_alignment + 0.3 * sector_alignment + 0.2 * trait_alignment))

/-- `stock_profile_matcher.py` lines 123-132. -/
def fit_label_from_score (fit_score : ℚ) : String :=
  if fit_score ≥ 0.80 then "Excellent Fit"
  else if fit_score ≥ 0.65 then "Good Fit"
  else if fit_score ≥ 0.50 then "Decent Fit"
  else "Poor Fit"

/-- `stock_profile_matcher.py` lines 135-144. -/
def fit_emoji_from_score (fit_score : ℚ) : String :=
  if fit_score ≥ 0.80 then "🎯"
  else if fit_score ≥ 0.65 then "✅"
  else if fit_score ≥ 0.50 then "⚠️"
  else "❌"

/-- Python banker's rounding (round-half-even) of a rational to an integer,
as used by float formatting. -/
def round_half_even (x : ℚ) : ℤ :=
  if x - Int.floor x < 1/2 then Int.floor x
  else if x - Int.floor x > 1/2 then Int.floor x + 1
  else if Int.floor x % 2 = 0 then Int.floor x
  else Int.floor x + 1

/-- Python f-string `{q:.0%}` formatting: percentage with no decimals. -/
def format_percent0 (q : ℚ) : String :=
  toString (round_half_even (q * 100)) ++ "%"

/-- `stock_profile_matcher.py` lines 147-199: templated reasoning text.  The
source also binds `pe_ratio`, `dividend_yield` and `fit_label` locally but
never uses them; f-strings render a `None` style/sector/tier as "None". -/
def generate_reasoning (classified_stock : ClassifiedStock)
    (connor_profile : ConnorProfile)
    (style_alignment sector_alignment trait_alignment overall_fit : ℚ) : String :=
  let ticker := classified_stock.ticker
  let style := classified_stock.style
  let sector := optStr classified_stock.sector
  let market_cap_tier := optStr classified_stock.market_cap_tier
  let pct := format_percent0 connor_profile.growth_focus_score
  let r1 := ticker ++ " is a " ++ optStr style ++ " stock in " ++ sector ++ ". "
  let r2 :=
    if style = some "Growth" then
      "Its Growth style aligns excellently with Connor" ++ apos
        ++ "s Aggressive risk tolerance and high growth focus (" ++ pct ++ "). "
    else if style = some "Value" then
      "As a Value stock, it aligns less well with Connor" ++ apos
        ++ "s Aggressive profile and growth focus (" ++ pct ++ "). "
    else if style = some "Dividend" then
      "Its Dividend character suggests income focus, which is secondary to Connor"
        ++ apos ++ "s growth orientation (" ++ pct ++ "). "
    else
      "As a Blend stock, it has mixed alignment with Connor" ++ apos
        ++ "s growth-focused profile. "
  let r3 :=
    if connor_profile.sector_preferences.any (fun pref =>
        substrB (lowerStr pref) (lowerStr sector)) then
      sector ++ " is within Connor" ++ apos
        ++ "s stated sector preferences (Sports & Entertainment, Real Estate, Impact Bonds). "
    else
      sector ++ " is outside Connor" ++ apos
        ++ "s stated sector preferences (Sports & Entertainment, Real Estate, Impact Bonds). "
  let r4 :=
    if classified_stock.market_cap_tier = some "Mega-cap"
        ∨ classified_stock.market_cap_tier = some "Large-cap" then
      "The " ++ market_cap_tier ++ " scale and solid fundamentals fit Connor" ++ apos
        ++ "s long-term, analytical approach and preference for established companies. "
    else if classified_stock.market_cap_tier = some "Mid-cap" then
      "The " ++ market_cap_tier
        ++ " scale offers growth potential while maintaining reasonable stability for Connor"
        ++ apos ++ "s long-term approach. "
    else
      "The " ++ market_cap_tier
        ++ " scale may lack the stability Connor typically seeks for long-term holdings. "
  let r5 :=
    if overall_fit ≥ 0.80 then
      "Overall: Excellent match—strong alignment across style, sector, and fundamentals."
    else if overall_fit ≥ 0.65 then
      "Overall: Good fit. Consider whether the sector or style aligns with your portfolio diversification goals."
    else if overall_fit ≥ 0.50 then
      "Overall: Decent fit but with notable misalignments. Evaluate against other opportunities."
    else
      "Overall: Poor fit. Consider whether your investment thesis overrides the profile misalignments."
  r1 ++ r2 ++ r3 ++ r4 ++ r5

/-- `stock_profile_matcher.py` lines 202-283: the matcher.  A Python-truthy
(populated) error string short-circuits to the fixed error record before any
alignment computation; otherwise the alignments are computed and assembled.
Every embedded operation of the success branch is total, so the source's
`except` fallback (lines 269-283) is unreachable in this model. -/
def match_stock_to_connor (classified_stock : ClassifiedStock)
    (connor_profile : ConnorProfile) : FitResult :=
  if pyTruthyStr classified_stock.error then
    { ticker := classified_stock.ticker
      fit_score := none
      fit_label := "Error"
      fit_emoji := "❌"
      style_alignment := none
      sector_alignment := none
      trait_alignment := none
      stock_style := none
      stock_sector := none
      connor_risk_tolerance := connor_profile.risk_tolerance
      reasoning := "Unable to fetch stock data."
      error := classified_stock.error }
  else
    let style_align := compute_style_alignment classified_stock.style connor_profile
    let sector_align := compute_sector_alignment
      (classified_stock.sector.getD "Unknown") connor_profile
    let trait_align := compute_trait_alignment classified_stock connor_profile
    let overall := compute_overall_fit style_align sector_align trait_align
    { ticker := classified_stock.ticker
      fit_score := some overall
      fit_label := fit_label_from_score overall
      fit_emoji := fit_emoji_from_score overall
      style_alignment := some style_align
      sector_alignment := some sector_align
      trait_alignment := some trait_align
      stock_style := classified_stock.style
      stock_sector := classified_stock.sector
      connor_risk_tolerance := connor_profile.risk_tolerance
      reasoning := generate_reasoning classified_stock connor_profile
        style_align sector_align trait_align overall
      error := none }

/-! ## Claim theorems for the profile matcher -/

/-- C3 (counterexample): the sector "Real Estate Development" against the
default preferred list (which contains "Urban Real Estate/Development") does
not score 0.95: the slash in the preferred phrase defeats a direct substring
match in either direction, so the code falls through to the shared-token rule
(token "real") and returns 0.75. -/
theorem c3_sector_counterexample :
    compute_sector_alignment "Real Estate Development" load_connor_profile ≠ 0.95 := by
  simp only [compute_sector_alignment]
  rw [if_neg (by decide), if_pos (by decide)]
  norm_num

/-- C3 (amended): sector alignment returns 0.95 on a case-insensitive direct
substring match in either direction; the sector "Real Estate Development"
against the default preferred list scores 0.75 (shared whitespace token
"real"; no direct substring match because of the slash in
"Urban Real Estate/Development"); "Technology" scores 0.50 (neutral list);
"Utilities" scores 0.30. -/
theorem c3_sector_amended :
    (∀ (stock_sector : String) (profile : ConnorProfile),
      (profile.sector_preferences.any (fun pref =>
        substrB (lowerStr pref) (lowerStr stock_sector)
          || substrB (lowerStr stock_sector) (lowerStr pref))) = true →
      compute_sector_alignment stock_sector profile = 0.95) ∧
    compute_sector_alignment "Real Estate Development" load_connor_profile = 0.75 ∧
    compute_sector_alignment "Technology" load_connor_profile = 0.50 ∧
    compute_sector_alignment "Utilities" load_connor_profile = 0.30 := by
  refine ⟨?_, ?_, ?_, ?_⟩
  · intro s p h
    simp only [compute_sector_alignment]
    rw [if_pos h]
  · simp only [compute_sector_alignment]
    rw [if_neg (by decide), if_pos (by decide)]
  · simp only [compute_sector_alignment]
    rw [if_neg (by decide), if_neg (by decide), if_pos (by decide)]
  · simp only [compute_sector_alignment]
    rw [if_neg (by decide), if_neg (by decide), if_neg (by decide)]

/-- Witness for C3's amended theorem: "Sports & Entertainment" is a direct
(identity) substring match against the default preferred list. -/
theorem c3_sector_witness :
    compute_sector_alignment "Sports & Entertainment" load_connor_profile = 0.95 :=
  c3_sector_amended.1 "Sports & Entertainment" load_connor_profile (by decide)

/-- C8: a ClassifiedStock carrying a populated (nonempty) error string makes
the matcher return the fixed error FitResult - fit score `none`, label
"Error", reasoning "Unable to fetch stock data.", all three alignment
subscores `none` - and the result does not depend on any field of the stock
other than its ticker and error, so no alignment computation is involved. -/
theorem c8_error_short_circuit (stock : ClassifiedStock) (profile : ConnorProfile)
    (e : String) (he : stock.error = some e) (hne : e ≠ "") :
    match_stock_to_connor stock profile =
      { ticker := stock.ticker
        fit_score := none
        fit_label := "Error"
        fit_emoji := "❌"
        style_alignment := none
        sector_alignment := none
        trait_alignment := none
        stock_style := none
        stock_sector := none
        connor_risk_tolerance := profile.risk_tolerance
        reasoning := "Unable to fetch stock data."
        error := some e } ∧
    (∀ stock2 : ClassifiedStock, stock2.error = stock.error →
      stock2.ticker = stock.ticker →
      match_stock_to_connor stock2 profile = match_stock_to_connor stock profile) := by
  have hE : e.isEmpty = false := by
    rw [Bool.eq_false_iff]
    intro hEmp
    exact hne ((String.isEmpty_iff e).mp hEmp)
  have htruthy : pyTruthyStr stock.error = true := by
    rw [he]
    simp [pyTruthyStr, hE]
  constructor
  · simp only [match_stock_to_connor]
    rw [if_pos htruthy, he]
  · intro stock2 h2e h2t
    simp only [match_stock_to_connor]
    rw [h2e, h2t, if_pos htruthy, if_pos htruthy]

/-- A classified stock as produced by the classifier on a fetch failure
(`stock_classifier.py` lines 93-106). -/
def err_stock : ClassifiedStock where
  ticker := "AAPL"
  short_name := none
  style := none
  sector := none
  market_cap_tier := none
  pe_ratio := none
  dividend_yield := none
  revenue_growth := none
  earnings_growth := none
  market_cap := none
  error := some "HTTP Error 404"

/-- Witness for C8 on a concrete errored stock and the default profile. -/
theorem c8_error_short_circuit_witness :
    match_stock_to_connor err_stock load_connor_profile =
      { ticker := "AAPL"
        fit_score := none
        fit_label := "Error"
        fit_emoji := "❌"
        style_alignment := none
        sector_alignment := none
        trait_alignment := none
        stock_style := none
        stock_sector := none
        connor_risk_tolerance := "Aggressive"
        reasoning := "Unable to fetch stock data."
        error := some "HTTP Error 404" } :=
  (c8_error_short_circuit err_stock load_connor_profile "HTTP Error 404"
    rfl (by decide)).1

/-- The tier adjustment started at 0.50 lies in [0.40, 0.65]. -/
theorem trait_tier_adj_bounds (tier : Option String) :
    0.40 ≤ trait_tier_adj tier 0.50 ∧ trait_tier_adj tier 0.50 ≤ 0.65 := by
  unfold trait_tier_adj
  split_ifs <;> constructor <;> norm_num

/-- The earnings-growth adjustment moves the alignment by at most ±0.10. -/
theorem trait_eg_adj_bounds (eg : Option ℚ) (a : ℚ) :
    a - 0.10 ≤ trait_eg_adj eg a ∧ trait_eg_adj eg a ≤ a + 0.10 := by
  rcases eg with _ | v
  · simp only [trait_eg_adj]
    constructor <;> linarith
  · simp only [trait_eg_adj]
    split_ifs <;> constructor <;> linarith

/-- The P/E adjustment moves the alignment by at most −0.05 / +0.10. -/
theorem trait_pe_adj_bounds (pe : Option ℚ) (a : ℚ) :
    a - 0.05 ≤ trait_pe_adj pe a ∧ trait_pe_adj pe a ≤ a + 0.10 := by
  rcases pe with _ | v
  · simp only [trait_pe_adj]
    constructor <;> linarith
  · simp only [trait_pe_adj]
    split_ifs <;> constructor <;> linarith

/-- Clamping to [0, 1] keeps any value that already lies in
[lo, hi] ⊆ [0, 1] between lo and hi, unchanged by the clamp. -/
theorem clamp_keeps_bounds (x lo hi : ℚ) (hlo : 0 ≤ lo) (hhi : hi ≤ 1)
    (h1 : lo ≤ x) (h2 : x ≤ hi) :
    lo ≤ max 0.0 (min 1.0 x) ∧ max 0.0 (min 1.0 x) ≤ hi := by
  have hone : (1.0 : ℚ) = 1 := by norm_num
  have hzero : (0.0 : ℚ) = 0 := by norm_num
  rw [hone, hzero, min_eq_right (by linarith), max_eq_right (by linarith)]
  exact ⟨h1, h2⟩

/-- C10: with a growth-focus score in [0, 1] the style alignment lies in
[0, 0.95], the sector alignment is one of {0.30, 0.50, 0.75, 0.95}, the trait
alignment lies in [0.25, 0.85], the weighted sum
0.5 * style + 0.3 * sector + 0.2 * trait lies in [0.14, 0.93], and the [0, 1]
clamp inside compute_overall_fit leaves it unchanged. -/
theorem c10_alignment_and_fit_bounds (profile : ConnorProfile)
    (hg0 : 0 ≤ profile.growth_focus_score) (hg1 : profile.growth_focus_score ≤ 1) :
    (∀ style : Option String,
      0 ≤ compute_style_alignment style profile ∧
      compute_style_alignment style profile ≤ 0.95) ∧
    (∀ sector : String,
      compute_sector_alignment sector profile = 0.30 ∨
      compute_sector_alignment sector profile = 0.50 ∨
      compute_sector_alignment sector profile = 0.75 ∨
      compute_sector_alignment sector profile = 0.95) ∧
    (∀ stock : ClassifiedStock,
      0.25 ≤ compute_trait_alignment stock profile ∧
      compute_trait_alignment stock profile ≤ 0.85) ∧
    (∀ (style : Option String) (sector : String) (stock : ClassifiedStock),
      0.14 ≤ 0.5 * compute_style_alignment style profile
          + 0.3 * compute_sector_alignment sector profile
          + 0.2 * compute_trait_alignment stock profile ∧
      0.5 * compute_style_alignment style profile
          + 0.3 * compute_sector_alignment sector profile
          + 0.2 * compute_trait_alignment stock profile ≤ 0.93 ∧
      compute_overall_fit (compute_style_alignment style profile)
          (compute_sector_alignment sector profile)
          (compute_trait_alignment stock profile)
        = 0.5 * compute_style_alignment style profile
          + 0.3 * compute_sector_alignment sector profile
          + 0.2 * compute_trait_alignment stock profile) := by
  have hstyle : ∀ style : Option String,
      0 ≤ compute_style_alignment style profile ∧
      compute_style_alignment style profile ≤ 0.95 := by
    intro style
    unfold compute_style_alignment
    split_ifs <;> constructor <;> linarith
  have hsector : ∀ sector : String,
      compute_sector_alignment sector profile = 0.30 ∨
      compute_sector_alignment sector profile = 0.50 ∨
      compute_sector_alignment sector profile = 0.75 ∨
      compute_sector_alignment sector profile = 0.95 := by
    intro sector
    unfold compute_sector_alignment
    split_ifs <;> norm_num
  have htrait : ∀ stock : ClassifiedStock,
      0.25 ≤ compute_trait_alignment stock profile ∧
      compute_trait_alignment stock profile ≤ 0.85 := by
    intro stock
    obtain ⟨h1, h2⟩ := trait_tier_adj_bounds stock.market_cap_tier
    obtain ⟨h3, h4⟩ := trait_eg_adj_bounds stock.earnings_growth
      (trait_tier_adj stock.market_cap_tier 0.50)
    obtain ⟨h5, h6⟩ := trait_pe_adj_bounds stock.pe_ratio
      (trait_eg_adj stock.earnings_growth (trait_tier_adj stock.market_cap_tier 0.50))
    unfold compute_trait_alignment
    exact clamp_keeps_bounds _ _ _ (by norm_num) (by norm_num)
      (by linarith) (by linarith)
  refine ⟨hstyle, hsector, htrait, ?_⟩
  intro style sector stock
  obtain ⟨hs0, hs1⟩ := hstyle style
  have hse : 0.30 ≤ compute_sector_alignment sector profile ∧
      compute_sector_alignment sector profile ≤ 0.95 := by
    rcases hsector sector with h | h | h | h <;> rw [h] <;> constructor <;> norm_num
  obtain ⟨ht0, ht1⟩ := htrait stock
  refine ⟨by linarith [hse.1], by linarith [hse.2], ?_⟩
  unfold compute_overall_fit
  have hone : (1.0 : ℚ) = 1 := by norm_num
  have hzero : (0.0 : ℚ) = 0 := by norm_num
  rw [hone, hzero, min_eq_right (by linarith [hse.2]), max_eq_right (by linarith [hse.1])]

/-- An error-free classified stock (the shape the classifier produces on a
successful fetch). -/
def sample_stock : ClassifiedStock where
  ticker := "MSFT"
  short_name := some "Microsoft Corporation"
  style := some "Growth"
  sector := some "Technology"
  market_cap_tier := some "Mega-cap"
  pe_ratio := some 35
  dividend_yield := some 0.008
  revenue_growth := some 0.12
  earnings_growth := some 0.2
  market_cap := some 3000000000000
  error := none

/-- Witness for C10 at the default profile (growth focus 0.67) and a concrete
error-free stock: the clamp inside compute_overall_fit is the identity there. -/
theorem c10_alignment_and_fit_witness :
    compute_overall_fit (compute_style_alignment (some "Growth") load_connor_profile)
        (compute_sector_alignment "Technology" load_connor_profile)
        (compute_trait_alignment sample_stock load_connor_profile)
      = 0.5 * compute_style_alignment (some "Growth") load_connor_profile
        + 0.3 * compute_sector_alignment "Technology" load_connor_profile
        + 0.2 * compute_trait_alignment sample_stock load_connor_profile :=
  ((c10_alignment_and_fit_bounds load_connor_profile
      (by norm_num [load_connor_profile])
      (by norm_num [load_connor_profile])).2.2.2
    (some "Growth") "Technology" sample_stock).2.2

end SQuARE
